import Mathlib

/-!
Verification of the climate analysis pipeline (`climate_analysis.py`,
`app.py`, `visualization.py`) against its specification.

The pipeline is embedded shallowly: pandas dataframes become lists of
records, float columns become exact rationals (reals where the code takes a
square root), NaN cells become `Option.none`, and the Python functions
become Lean functions of the same name.  In-place dataframe mutation is made
explicit by returning the post-state of the mutated argument alongside the
computed result.
-/

namespace ClimateAnalysis

/-- The four season labels of `pd.cut` in `preprocess_data`. -/
inductive Season
  | Winter
  | Spring
  | Summer
  | Fall
deriving DecidableEq

/-- The six region labels of `pd.cut` in `preprocess_data`. -/
inductive Region
  | Antarctica
  | Southern
  | TropicalS
  | TropicalN
  | Northern
  | Arctic
deriving DecidableEq

/-- Season bins: `pd.cut(month, bins=[0,3,6,9,13], labels=[Winter,Spring,Summer,Fall],
include_lowest=True)`: right-closed intervals `[0,3], (3,6], (6,9], (9,13]`,
`none` (NaN) outside. -/
def seasonCut (m : ℤ) : Option Season :=
  if 0 ≤ m ∧ m ≤ 3 then some Season.Winter
  else if 3 < m ∧ m ≤ 6 then some Season.Spring
  else if 6 < m ∧ m ≤ 9 then some Season.Summer
  else if 9 < m ∧ m ≤ 13 then some Season.Fall
  else none

/-- The season column: the `pd.cut` assignment followed by the
`temp_df.loc[temp_df['month'] == 12, 'season'] = 'Winter'` override. -/
def seasonOf (m : ℤ) : Option Season :=
  if m = 12 then some Season.Winter else seasonCut m

/-- Region bins: `pd.cut(latitude, bins=[-90,-60,-30,0,30,60,90], labels=[...])` with the
default `right=True` and no `include_lowest`: left-open right-closed bins,
`none` (NaN) for values outside every bin (including exactly -90). -/
def regionOf (lat : ℚ) : Option Region :=
  if -90 < lat ∧ lat ≤ -60 then some Region.Antarctica
  else if -60 < lat ∧ lat ≤ -30 then some Region.Southern
  else if -30 < lat ∧ lat ≤ 0 then some Region.TropicalS
  else if 0 < lat ∧ lat ≤ 30 then some Region.TropicalN
  else if 30 < lat ∧ lat ≤ 60 then some Region.Northern
  else if 60 < lat ∧ lat ≤ 90 then some Region.Arctic
  else none

/-- Decade bucketing `(data['year'] // 10) * 10` — Python `//` is floor division. -/
def decadeOf (y : ℤ) : ℤ := y.fdiv 10 * 10

/-- One row of `temperature_data.csv`: temperature in tenths of a degree C. -/
structure TempRecord where
  station_id : String
  year : ℤ
  month : ℤ
  temperature : ℤ
deriving DecidableEq

/-- One row of `station_metadata.csv`. -/
structure Station where
  station_id : String
  latitude : ℚ
  longitude : ℚ
  elevation : ℚ
  name : String
  country : String
deriving DecidableEq

/-- One row of the enriched dataframe produced by `preprocess_data`: the
temperature record merged with its station metadata plus the derived
columns.  `decade` is `none` until `analyze_temperature_trends` writes the
column in place. -/
structure Enriched where
  station_id : String
  year : ℤ
  month : ℤ
  temperature : ℤ
  temperature_c : ℚ
  date : ℤ × ℤ × ℤ
  season : Option Season
  latitude : ℚ
  longitude : ℚ
  elevation : ℚ
  name : String
  country : String
  region : Option Region
  decade : Option ℤ
deriving DecidableEq

/-- The columns `preprocess_data` attaches to one temperature record given
its matching metadata row. -/
def enrichWith (r : TempRecord) (s : Station) : Enriched :=
  ⟨r.station_id, r.year, r.month, r.temperature, (r.temperature : ℚ) / 10,
   (r.year, r.month, 1), seasonOf r.month, s.latitude, s.longitude,
   s.elevation, s.name, s.country, regionOf s.latitude, none⟩

/-- Function `preprocess_data`: derive `temperature_c`, `date`, `season`, inner-join
with the metadata on `station_id` (`pd.merge`), derive `region`. -/
def preprocess_data (temps : List TempRecord) (meta : List Station) :
    List Enriched :=
  (temps.map (fun r =>
    (meta.filter (fun s => decide (s.station_id = r.station_id))).map
      (enrichWith r))).flatten

/-- Arithmetic mean of a rational column (`Series.mean`), used only where the
source applies it to a non-empty group. -/
def qmean (l : List ℚ) : ℚ := l.sum / l.length

/-- Mean `Series.mean` with pandas NaN semantics on an empty series. -/
def listMean (l : List ℚ) : Option ℚ :=
  if l.isEmpty then none else some (qmean l)

/-- Mean `Series.mean` over a column that may itself contain NaN cells: pandas
skips the NaN entries and yields NaN only when nothing remains. -/
def optMean (l : List (Option ℚ)) : Option ℚ := listMean (l.filterMap id)

/-- Subtraction of two float cells with NaN propagation. -/
def optSub (a b : Option ℚ) : Option ℚ :=
  match a, b with
  | some x, some y => some (x - y)
  | _, _ => none

/-- One row of `annual_global_avg`. -/
structure GlobalRow where
  year : ℤ
  temperature_c : ℚ
  temp_anomaly : ℚ
deriving DecidableEq

/-- The distinct observed years, the group keys of `data.groupby('year')`. -/
def globalYears (data : List Enriched) : List ℤ :=
  (data.map Enriched.year).dedup

/-- Mean `temperature_c` of one year group of `data.groupby('year')`. -/
def yearMean (data : List Enriched) (y : ℤ) : ℚ :=
  qmean ((data.filter (fun e => decide (e.year = y))).map Enriched.temperature_c)

/-- Table `annual_global_avg`: per-year mean plus
`temp_anomaly = temperature_c - annual_global_avg['temperature_c'].mean()`. -/
def annual_global_avg (data : List Enriched) : List GlobalRow :=
  (globalYears data).map (fun y =>
    ⟨y, yearMean data y,
     yearMean data y - qmean ((globalYears data).map (yearMean data))⟩)

/-- One row of `annual_regional_avg` after the baseline merge. -/
structure RegRow where
  year : ℤ
  region : Region
  temperature_c : Option ℚ
  baseline_temp : Option ℚ
  temp_anomaly : Option ℚ
deriving DecidableEq

/-- The category list of the `region` column: with the pandas default
`observed=False`, grouping on this categorical key enumerates all six
categories, whether or not any row carries them. -/
def allRegions : List Region :=
  [Region.Antarctica, Region.Southern, Region.TropicalS, Region.TropicalN,
   Region.Northern, Region.Arctic]

/-- Observed years among the rows with a non-NaN `region` (groupby drops
rows whose grouping key is NaN). -/
def regYears (data : List Enriched) : List ℤ :=
  ((data.filter (fun e => e.region.isSome)).map Enriched.year).dedup

/-- Mean `temperature_c` of one `(year, region)` cell of
`data.groupby(['year','region'])`; NaN for an empty cell. -/
def cellMean (data : List Enriched) (y : ℤ) (r : Region) : Option ℚ :=
  listMean ((data.filter (fun e =>
    decide (e.year = y ∧ e.region = some r))).map Enriched.temperature_c)

/-- Baselines `regional_baselines`: per region, the mean of that region's
`(year, region)` cell means over the rows of `annual_regional_avg` with
`1961 <= year <= 1990` (NaN cells skipped by `mean`, NaN if none left). -/
def regionalBaseline (data : List Enriched) (r : Region) : Option ℚ :=
  optMean (((regYears data).filter (fun y => decide (1961 ≤ y ∧ y ≤ 1990))).map
    (fun y => cellMean data y r))

/-- Table `annual_regional_avg`: the `(year, region)` means (all six categorical
regions per observed year, `observed=False`), merged with
`regional_baselines` on `region` and extended with
`temp_anomaly = temperature_c - baseline_temp` (NaN propagates). -/
def annual_regional_avg (data : List Enriched) : List RegRow :=
  ((regYears data).map (fun y => allRegions.map (fun r =>
    (⟨y, r, cellMean data y r, regionalBaseline data r,
      optSub (cellMean data y r) (regionalBaseline data r)⟩ : RegRow)))).flatten

/-- One row of `seasonal_avg`. -/
structure SeasonRow where
  year : ℤ
  season : Season
  temperature_c : Option ℚ
deriving DecidableEq

/-- The category list of the `season` column. -/
def allSeasons : List Season :=
  [Season.Winter, Season.Spring, Season.Summer, Season.Fall]

/-- Observed years among rows with a non-NaN `season`. -/
def seasonYears (data : List Enriched) : List ℤ :=
  ((data.filter (fun e => e.season.isSome)).map Enriched.year).dedup

/-- Mean `temperature_c` of one `(year, season)` cell. -/
def seasonCellMean (data : List Enriched) (y : ℤ) (s : Season) : Option ℚ :=
  listMean ((data.filter (fun e =>
    decide (e.year = y ∧ e.season = some s))).map Enriched.temperature_c)

/-- Table `seasonal_avg`: `data.groupby(['year','season'])['temperature_c'].mean()`. -/
def seasonal_avg (data : List Enriched) : List SeasonRow :=
  ((seasonYears data).map (fun y => allSeasons.map (fun s =>
    (⟨y, s, seasonCellMean data y s⟩ : SeasonRow)))).flatten

/-- One row of `decadal_avg`. -/
structure DecadalRow where
  decade : ℤ
  region : Region
  temperature_c : Option ℚ
deriving DecidableEq

/-- Observed decades among rows with a non-NaN `region`. -/
def decades (data : List Enriched) : List ℤ :=
  ((data.filter (fun e => e.region.isSome)).map
    (fun e => decadeOf e.year)).dedup

/-- Mean `temperature_c` of one `(decade, region)` cell. -/
def decadeCellMean (data : List Enriched) (d : ℤ) (r : Region) : Option ℚ :=
  listMean ((data.filter (fun e =>
    decide (decadeOf e.year = d ∧ e.region = some r))).map Enriched.temperature_c)

/-- Table `decadal_avg`: `data.groupby(['decade','region'])['temperature_c'].mean()`. -/
def decadal_avg (data : List Enriched) : List DecadalRow :=
  ((decades data).map (fun d => allRegions.map (fun r =>
    (⟨d, r, decadeCellMean data d r⟩ : DecadalRow)))).flatten

/-- The four tables returned by `analyze_temperature_trends`. -/
structure TrendTables where
  annual_global : List GlobalRow
  annual_regional : List RegRow
  seasonal : List SeasonRow
  decadal : List DecadalRow
deriving DecidableEq

/-- The in-place column write `data['decade'] = (data['year'] // 10) * 10`
applied to one row. -/
def withDecade (e : Enriched) : Enriched :=
  ⟨e.station_id, e.year, e.month, e.temperature, e.temperature_c, e.date,
   e.season, e.latitude, e.longitude, e.elevation, e.name, e.country,
   e.region, some (decadeOf e.year)⟩

/-- Forget the `decade` column (used to compare dataframes up to the column
that `analyze_temperature_trends` writes). -/
def eraseDecade (e : Enriched) : Enriched :=
  ⟨e.station_id, e.year, e.month, e.temperature, e.temperature_c, e.date,
   e.season, e.latitude, e.longitude, e.elevation, e.name, e.country,
   e.region, none⟩

/-- Function `analyze_temperature_trends`.  The first component is the post-state of
the argument dataframe: the function mutates it in place by writing the
`decade` column before computing `decadal_avg`. -/
def analyze_temperature_trends (data : List Enriched) :
    List Enriched × TrendTables :=
  (data.map withDecade,
   ⟨annual_global_avg data, annual_regional_avg data, seasonal_avg data,
    decadal_avg data⟩)

/-- The `temperature_c` history of one station, the group
`data.groupby('station_id')` for that key. -/
def stationTemps (data : List Enriched) (sid : String) : List ℚ :=
  (data.filter (fun e => decide (e.station_id = sid))).map Enriched.temperature_c

/-- The `mean` column of `station_stats`. -/
def stationMean (data : List Enriched) (sid : String) : ℚ :=
  qmean (stationTemps data sid)

/-- Sample variance underlying pandas `std` (`ddof=1`): NaN for fewer than
two observations, otherwise the sum of squared deviations over `n - 1`. -/
def sampleVar (l : List ℚ) : Option ℚ :=
  if l.length ≤ 1 then none
  else some (((l.map (fun x => (x - qmean l) ^ 2)).sum) / ((l.length : ℚ) - 1))

/-- The `std` column of `station_stats`: pandas sample standard deviation,
NaN (`none`) for a single-observation station. -/
noncomputable def stationStd (data : List Enriched) (sid : String) : Option ℝ :=
  (sampleVar (stationTemps data sid)).map (fun v : ℚ => Real.sqrt (v : ℝ))

/-- Column `data['extreme_hot'] = data['temperature_c'] > (data['mean'] + 2 * data['std'])`
for one row; a comparison against NaN is false. -/
def extreme_hot (x m : ℚ) (s : Option ℝ) : Prop :=
  match s with
  | none => False
  | some sd => (x : ℝ) > (m : ℝ) + 2 * sd

/-- Column `data['extreme_cold'] = data['temperature_c'] < (data['mean'] - 2 * data['std'])`
for one row; a comparison against NaN is false. -/
def extreme_cold (x m : ℚ) (s : Option ℝ) : Prop :=
  match s with
  | none => False
  | some sd => (x : ℝ) < (m : ℝ) - 2 * sd

/-- The `extreme_hot` flag of a record, with its station's statistics
joined on by `pd.merge(data, station_stats, on='station_id')`. -/
def recHot (data : List Enriched) (e : Enriched) : Prop :=
  extreme_hot e.temperature_c (stationMean data e.station_id)
    (stationStd data e.station_id)

/-- The `extreme_cold` flag of a record. -/
def recCold (data : List Enriched) (e : Enriched) : Prop :=
  extreme_cold e.temperature_c (stationMean data e.station_id)
    (stationStd data e.station_id)

/-- Executable form of the `extreme_hot` flag: the strict comparison against
`mean + 2*std` rewritten without the square root (proved equivalent in
`recHot_iff` below). -/
def recHotB (data : List Enriched) (e : Enriched) : Bool :=
  match sampleVar (stationTemps data e.station_id) with
  | none => false
  | some v => decide (stationMean data e.station_id < e.temperature_c ∧
      4 * v < (e.temperature_c - stationMean data e.station_id) ^ 2)

/-- Executable form of the `extreme_cold` flag (proved equivalent in
`recCold_iff` below). -/
def recColdB (data : List Enriched) (e : Enriched) : Bool :=
  match sampleVar (stationTemps data e.station_id) with
  | none => false
  | some v => decide (e.temperature_c < stationMean data e.station_id ∧
      4 * v < (stationMean data e.station_id - e.temperature_c) ^ 2)

/-- The rows of one `(decade, region)` cell of
`data.groupby(['decade','region'])` inside `analyze_extreme_temperatures`
(rows with NaN region are dropped by groupby). -/
def cellRecs (data : List Enriched) (d : ℤ) (r : Region) : List Enriched :=
  data.filter (fun e => decide (decadeOf e.year = d ∧ e.region = some r))

/-- One row of `extreme_counts`. -/
structure ExtremeRow where
  decade : ℤ
  region : Region
  extreme_hot : ℕ
  extreme_cold : ℕ
deriving DecidableEq

/-- Function `analyze_extreme_temperatures`.  The first component is the post-state
of the argument: the function rebinds its local name to the merged copy, so
the caller's dataframe is left untouched.  The second component is
`extreme_counts`: per `(decade, region)` cell (all six categorical regions,
`observed=False`), the number of rows flagged extreme-hot and extreme-cold. -/
def analyze_extreme_temperatures (data : List Enriched) :
    List Enriched × List ExtremeRow :=
  (data,
   ((decades data).map (fun d => allRegions.map (fun r =>
     (⟨d, r, (cellRecs data d r).countP (recHotB data),
       (cellRecs data d r).countP (recColdB data)⟩ : ExtremeRow)))).flatten)

/-- What the CSV files under `data/` hold. -/
inductive CSVContent
  | sample
  | preexisting
deriving DecidableEq

/-- The files `load_data` and `download_data` look at: the two CSVs
(`temperature_data.csv` + `station_metadata.csv`, modelled together because
the code tests both at once) and the downloaded archive. -/
structure FileState where
  csv : Option CSVContent
  hasArchive : Bool
deriving DecidableEq

/-- The spec's loader error taxonomy.  The source never raises it: this
type exists so that the loader's success/failure behaviour is statable. -/
inductive LoaderError
  | DataUnavailable
deriving DecidableEq

/-- Function `create_sample_data`: generates the synthetic dataset and writes the two
CSV files. -/
def create_sample_data (fs : FileState) : FileState :=
  ⟨some CSVContent.sample, fs.hasArchive⟩

/-- Function `download_data`: on a reachable remote, saves the archive (it is never
extracted into the CSVs); on any failure, falls back to
`create_sample_data`. -/
def download_data (remoteOk : Bool) (fs : FileState) : FileState :=
  if remoteOk then ⟨fs.csv, true⟩ else create_sample_data fs

/-- Function `load_data`: reads the CSVs when both exist, otherwise generates the
sample data; it always succeeds. -/
def load_data (fs : FileState) :
    Except LoaderError (FileState × CSVContent) :=
  match fs.csv with
  | some c => Except.ok (fs, c)
  | none => Except.ok (create_sample_data fs, CSVContent.sample)

/-- Predicate `Except.isOk` spelled out for the loader result. -/
def loadOk (x : Except LoaderError (FileState × CSVContent)) : Bool :=
  match x with
  | Except.ok _ => true
  | Except.error _ => false

/-- The six result tables (`required_files` in `load_results`, keyed by
file stem). -/
inductive TableName
  | annual_global_avg
  | annual_regional_avg
  | seasonal_avg
  | decadal_avg
  | extreme_counts
  | processed_data
deriving DecidableEq

/-- List `required_files` of `load_results`, as table names. -/
def requiredFiles : List TableName :=
  [TableName.annual_global_avg, TableName.annual_regional_avg,
   TableName.seasonal_avg, TableName.decadal_avg, TableName.extreme_counts,
   TableName.processed_data]

/-- The failures a consumer of the result store can observe:
`FileNotFoundError` from `load_results` when no result file exists at all,
and the dict `KeyError` when the requested key was not loaded. -/
inductive StoreError
  | fileNotFound
  | keyError
deriving DecidableEq

/-- Function `load_results` (`app.py` / `visualization.py`): collect the result
tables whose files exist; raise `FileNotFoundError` when none do. -/
def load_results (present : TableName → Bool) :
    Except StoreError (List TableName) :=
  if (requiredFiles.filter present).isEmpty then Except.error StoreError.fileNotFound
  else Except.ok (requiredFiles.filter present)

/-- Requesting one table from the store: run `load_results`, then index the
returned dict (`results['...']`), whose missing-key behaviour is a
`KeyError`. -/
def getTable (present : TableName → Bool) (name : TableName) :
    Except StoreError TableName :=
  match load_results present with
  | Except.error e => Except.error e
  | Except.ok results =>
      if name ∈ results then Except.ok name else Except.error StoreError.keyError

/-- Concrete input: one station, one record per year in 2000 and 2010. -/
def DTwoYears : List Enriched :=
  preprocess_data [⟨"A", 2000, 1, 10⟩, ⟨"A", 2010, 1, 30⟩]
    [⟨"A", 10, 0, 0, "a", "X"⟩]

/-- Concrete input: a Northern station observed in 1970 (inside the
1961-1990 baseline window) and an Arctic station observed only in 2000
(outside the window). -/
def DBase : List Enriched :=
  preprocess_data [⟨"N", 1970, 1, 50⟩, ⟨"R", 2000, 1, 100⟩]
    [⟨"N", 45, 0, 0, "n", "X"⟩, ⟨"R", 70, 0, 0, "r", "X"⟩]

/-- Concrete input: one station with temperatures (degrees C)
`[4, -1, -1, -1, -1, 0]`, so the station mean is `0`, the sample variance
is `4` and the standard deviation is exactly `2`; the first record sits
exactly on the `mean + 2 * std` threshold. -/
def DBoundary : List Enriched :=
  preprocess_data
    [⟨"A", 2000, 1, 40⟩, ⟨"A", 2000, 2, -10⟩, ⟨"A", 2000, 3, -10⟩,
     ⟨"A", 2000, 4, -10⟩, ⟨"A", 2000, 5, -10⟩, ⟨"A", 2000, 6, 0⟩]
    [⟨"A", 70, 0, 0, "a", "X"⟩]

/-- The record of `DBoundary` whose temperature equals the station's
`mean + 2 * std` exactly. -/
def eBoundary : Enriched :=
  enrichWith ⟨"A", 2000, 1, 40⟩ ⟨"A", 70, 0, 0, "a", "X"⟩

/-- Concrete input: a station whose full history is a single record. -/
def DSingle : List Enriched :=
  preprocess_data [⟨"B", 2000, 1, 70⟩] [⟨"B", 10, 0, 0, "b", "X"⟩]

/-- The single record of `DSingle`. -/
def eSingle : Enriched :=
  enrichWith ⟨"B", 2000, 1, 70⟩ ⟨"B", 10, 0, 0, "b", "X"⟩

/-- Concrete input: a single enriched record in year 1969, Tropical N. -/
def DOne : List Enriched :=
  preprocess_data [⟨"A", 1969, 1, 10⟩] [⟨"A", 10, 0, 0, "a", "X"⟩]

/-- Every region value is among the six categories of the `region` column. -/
theorem mem_allRegions (r : Region) : r ∈ allRegions := by
  cases r <;> simp [allRegions]

/-- Summing a column minus a constant. -/
theorem sum_map_sub_const (ys : List ℤ) (f : ℤ → ℚ) (c : ℚ) :
    (ys.map (fun y => f y - c)).sum = (ys.map f).sum - ys.length * c := by
  induction ys with
  | nil => simp
  | cons a t ih =>
    simp only [List.map_cons, List.sum_cons, List.length_cons, ih]
    push_cast
    ring

/-- NaN propagation through the anomaly subtraction. -/
theorem optSub_none_right (a : Option ℚ) : optSub a none = none := by
  cases a <;> rfl

/-- C1: the claim says months 3-5 map to Spring, 6-8 to Summer and 9-11 to
Fall.  Evaluating the code's season assignment (`pd.cut` with right-closed
bins `[0,3,6,9,13]` plus the December override) at the failing inputs:
month 3 is assigned Winter, month 6 Spring and month 9 Summer, against both
the claim and the code's own comment ("Mar-May: Spring, etc."); months 1,
2, 11 and 12 agree with the claim. -/
theorem c1_season_bins_shifted :
    seasonOf 3 = some Season.Winter ∧ seasonOf 6 = some Season.Spring ∧
    seasonOf 9 = some Season.Summer ∧ seasonOf 1 = some Season.Winter ∧
    seasonOf 2 = some Season.Winter ∧ seasonOf 11 = some Season.Fall ∧
    seasonOf 12 = some Season.Winter := by
  decide

/-- C2 counterexample: the claim maps latitude 0 to Tropical N and latitude
-90 to Antarctica; the code's `pd.cut` (right-closed bins, no
`include_lowest`) puts latitude 0 in Tropical S and gives latitude -90 no
region at all (NaN). -/
theorem c2_counterexample :
    regionOf 0 = some Region.TropicalS ∧ regionOf (-90) = none := by
  decide

/-- C2 (amended): region assignment is total only on latitudes in
(-90, 90], with right-closed bins (-90,-60] Antarctica, (-60,-30] Southern,
(-30,0] Tropical S, (0,30] Tropical N, (30,60] Northern, (60,90] Arctic;
latitude exactly 0 falls in Tropical S, latitude 90 in Arctic, and latitude
-90 (or any latitude outside (-90, 90]) gets a missing (NaN) region. -/
theorem c2_region_bins_amended :
    (∀ lat : ℚ, -90 < lat → lat ≤ -60 → regionOf lat = some Region.Antarctica) ∧
    (∀ lat : ℚ, -60 < lat → lat ≤ -30 → regionOf lat = some Region.Southern) ∧
    (∀ lat : ℚ, -30 < lat → lat ≤ 0 → regionOf lat = some Region.TropicalS) ∧
    (∀ lat : ℚ, 0 < lat → lat ≤ 30 → regionOf lat = some Region.TropicalN) ∧
    (∀ lat : ℚ, 30 < lat → lat ≤ 60 → regionOf lat = some Region.Northern) ∧
    (∀ lat : ℚ, 60 < lat → lat ≤ 90 → regionOf lat = some Region.Arctic) ∧
    regionOf (-90) = none ∧ regionOf 0 = some Region.TropicalS ∧
    regionOf 90 = some Region.Arctic ∧
    (∀ lat : ℚ, lat ≤ -90 → regionOf lat = none) ∧
    (∀ lat : ℚ, 90 < lat → regionOf lat = none) := by
  refine ⟨?_, ?_, ?_, ?_, ?_, ?_, by decide, by decide, by decide, ?_, ?_⟩
  · intro lat h1 h2
    rw [regionOf, if_pos ⟨h1, h2⟩]
  · intro lat h1 h2
    rw [regionOf, if_neg (fun hc => absurd hc.2 (not_le.mpr (by linarith))),
      if_pos ⟨h1, h2⟩]
  · intro lat h1 h2
    rw [regionOf, if_neg (fun hc => absurd hc.2 (not_le.mpr (by linarith))),
      if_neg (fun hc => absurd hc.2 (not_le.mpr (by linarith))),
      if_pos ⟨h1, h2⟩]
  · intro lat h1 h2
    rw [regionOf, if_neg (fun hc => absurd hc.2 (not_le.mpr (by linarith))),
      if_neg (fun hc => absurd hc.2 (not_le.mpr (by linarith))),
      if_neg (fun hc => absurd hc.2 (not_le.mpr (by linarith))),
      if_pos ⟨h1, h2⟩]
  · intro lat h1 h2
    rw [regionOf, if_neg (fun hc => absurd hc.2 (not_le.mpr (by linarith))),
      if_neg (fun hc => absurd hc.2 (not_le.mpr (by linarith))),
      if_neg (fun hc => absurd hc.2 (not_le.mpr (by linarith))),
      if_neg (fun hc => absurd hc.2 (not_le.mpr (by linarith))),
      if_pos ⟨h1, h2⟩]
  · intro lat h1 h2
    rw [regionOf, if_neg (fun hc => absurd hc.2 (not_le.mpr (by linarith))),
      if_neg (fun hc => absurd hc.2 (not_le.mpr (by linarith))),
      if_neg (fun hc => absurd hc.2 (not_le.mpr (by linarith))),
      if_neg (fun hc => absurd hc.2 (not_le.mpr (by linarith))),
      if_neg (fun hc => absurd hc.2 (not_le.mpr (by linarith))),
      if_pos ⟨h1, h2⟩]
  · intro lat h1
    rw [regionOf, if_neg (fun hc => absurd hc.1 (not_lt.mpr h1)),
      if_neg (fun hc => absurd hc.1 (not_lt.mpr (by linarith))),
      if_neg (fun hc => absurd hc.1 (not_lt.mpr (by linarith))),
      if_neg (fun hc => absurd hc.1 (not_lt.mpr (by linarith))),
      if_neg (fun hc => absurd hc.1 (not_lt.mpr (by linarith))),
      if_neg (fun hc => absurd hc.1 (not_lt.mpr (by linarith)))]
  · intro lat h1
    rw [regionOf, if_neg (fun hc => absurd hc.2 (not_le.mpr (by linarith))),
      if_neg (fun hc => absurd hc.2 (not_le.mpr (by linarith))),
      if_neg (fun hc => absurd hc.2 (not_le.mpr (by linarith))),
      if_neg (fun hc => absurd hc.2 (not_le.mpr (by linarith))),
      if_neg (fun hc => absurd hc.2 (not_le.mpr (by linarith))),
      if_neg (fun hc => absurd hc.2 (not_le.mpr (by linarith)))]

/-- C2 witness: the amended bin facts at concrete latitudes -75 (Antarctica)
and 15 (Tropical N). -/
theorem c2_witness :
    regionOf (-75) = some Region.Antarctica ∧
    regionOf 15 = some Region.TropicalN :=
  ⟨c2_region_bins_amended.1 (-75) (by norm_num) (by norm_num),
   c2_region_bins_amended.2.2.2.1 15 (by norm_num) (by norm_num)⟩

/-- C4: on any non-empty enriched record set, each row of
`annual_global_avg` has anomaly equal to its year mean minus the mean of
the per-year means over the full observed year range, and consequently the
mean of the `temp_anomaly` column is exactly zero. -/
theorem c4_global_anomaly_mean_zero (data : List Enriched) (h : data ≠ []) :
    (∀ row ∈ annual_global_avg data,
      row.temp_anomaly =
        row.temperature_c - qmean ((globalYears data).map (yearMean data))) ∧
    qmean ((annual_global_avg data).map GlobalRow.temp_anomaly) = 0 := by
  constructor
  · intro row hrow
    obtain ⟨y, _, rfl⟩ := List.mem_map.mp hrow
    rfl
  · have hys : globalYears data ≠ [] := by
      cases data with
      | nil => exact absurd rfl h
      | cons a t =>
        exact List.ne_nil_of_mem
          (List.mem_dedup.mpr (List.mem_map_of_mem Enriched.year
            (List.mem_cons_self a t)))
    have hn : ((globalYears data).length : ℚ) ≠ 0 := by
      exact_mod_cast List.length_pos.mpr hys |>.ne'
    simp only [annual_global_avg, List.map_map]
    show qmean ((globalYears data).map
      (fun y => yearMean data y -
        qmean ((globalYears data).map (yearMean data)))) = 0
    rw [qmean, sum_map_sub_const, List.length_map]
    rw [show qmean ((globalYears data).map (yearMean data)) =
      ((globalYears data).map (yearMean data)).sum / (globalYears data).length
      by rw [qmean, List.length_map]]
    field_simp

/-- C4 witness: on the concrete two-year data set the anomaly column of the
global annual table averages to zero. -/
theorem c4_witness :
    qmean ((annual_global_avg DTwoYears).map GlobalRow.temp_anomaly) = 0 :=
  (c4_global_anomaly_mean_zero DTwoYears (by decide)).2

/-- C3: if a region has no enriched record with a year in the 1961-1990
baseline window, then every row of `annual_regional_avg` for that region
has a missing (NaN) anomaly — distinguishable from an anomaly of zero —
and the region's rows are still present in the table: for every observed
year there is a row for that year and region. -/
theorem c3_missing_baseline_propagates_nan (data : List Enriched) (r : Region)
    (h : ∀ e ∈ data, e.region = some r → ¬(1961 ≤ e.year ∧ e.year ≤ 1990)) :
    (∀ row ∈ annual_regional_avg data, row.region = r →
      row.temp_anomaly = none) ∧
    (∀ y ∈ regYears data, ∃ row, row ∈ annual_regional_avg data ∧
      row.year = y ∧ row.region = r ∧ row.temp_anomaly ≠ some 0) := by
  have hbase : regionalBaseline data r = none := by
    rw [regionalBaseline]
    have hall : (((regYears data).filter
        (fun y => decide (1961 ≤ y ∧ y ≤ 1990))).map
        (fun y => cellMean data y r)).filterMap id = [] := by
      rw [List.filterMap_eq_nil_iff]
      intro o ho
      obtain ⟨y, hy, rfl⟩ := List.mem_map.mp ho
      obtain ⟨-, hy2⟩ := List.mem_filter.mp hy
      rw [decide_eq_true_eq] at hy2
      have hfil : data.filter
          (fun e => decide (e.year = y ∧ e.region = some r)) = [] := by
        rw [List.filter_eq_nil_iff]
        intro e he
        simp only [decide_eq_true_eq, not_and]
        intro hey her
        exact h e he her (hey ▸ hy2)
      show cellMean data y r = none
      rw [cellMean, hfil]
      rfl
    rw [optMean, hall]
    rfl
  constructor
  · intro row hrow hreg
    simp only [annual_regional_avg] at hrow
    rw [List.mem_flatten] at hrow
    obtain ⟨inner, hin, hrin⟩ := hrow
    obtain ⟨y, _, rfl⟩ := List.mem_map.mp hin
    obtain ⟨r2, _, rfl⟩ := List.mem_map.mp hrin
    have : r2 = r := hreg
    subst this
    show optSub (cellMean data y r2) (regionalBaseline data r2) = none
    rw [hbase, optSub_none_right]
  · intro y hy
    refine ⟨⟨y, r, cellMean data y r, regionalBaseline data r,
      optSub (cellMean data y r) (regionalBaseline data r)⟩, ?_, rfl, rfl, ?_⟩
    · simp only [annual_regional_avg]
      rw [List.mem_flatten]
      exact ⟨allRegions.map (fun r2 =>
        ⟨y, r2, cellMean data y r2, regionalBaseline data r2,
         optSub (cellMean data y r2) (regionalBaseline data r2)⟩),
        List.mem_map_of_mem _ hy, List.mem_map_of_mem _ (mem_allRegions r)⟩
    · show optSub (cellMean data y r) (regionalBaseline data r) ≠ some 0
      rw [hbase, optSub_none_right]
      exact fun hc => Option.noConfusion hc

/-- C3 witness: in the concrete data set `DBase` the Arctic region has data
only in year 2000 (outside the baseline window); the table keeps its year
2000 row with a missing anomaly. -/
theorem c3_witness :
    ∃ row, row ∈ annual_regional_avg DBase ∧ row.year = 2000 ∧
      row.region = Region.Arctic ∧ row.temp_anomaly ≠ some 0 :=
  (c3_missing_baseline_propagates_nan DBase Region.Arctic (by decide)).2
    2000 (by decide)

/-- The pandas sample variance is never negative. -/
theorem sampleVar_nonneg (l : List ℚ) (v : ℚ) (h : sampleVar l = some v) :
    0 ≤ v := by
  rw [sampleVar] at h
  split at h
  · exact absurd h (by simp)
  · rename_i hlen
    rw [Option.some_inj] at h
    rw [← h]
    apply div_nonneg
    · apply List.sum_nonneg
      intro x hx
      obtain ⟨a, -, rfl⟩ := List.mem_map.mp hx
      positivity
    · have h2 : (2 : ℚ) ≤ (l.length : ℚ) := by exact_mod_cast (by omega : 2 ≤ l.length)
      linarith

/-- A standard deviation produced by `stationStd` carries its variance. -/
theorem stationStd_eq_some (data : List Enriched) (sid : String) (s : ℝ)
    (h : stationStd data sid = some s) :
    ∃ v : ℚ, sampleVar (stationTemps data sid) = some v ∧
      s = Real.sqrt (v : ℝ) ∧ 0 ≤ s := by
  rw [stationStd] at h
  cases hv : sampleVar (stationTemps data sid) with
  | none => rw [hv] at h; exact absurd h (by simp)
  | some v =>
    rw [hv] at h
    simp only [Option.map_some', Option.some_inj] at h
    exact ⟨v, rfl, h.symm, h ▸ Real.sqrt_nonneg _⟩

/-- The strict threshold `x > m + 2 * sqrt v` rewritten over the rationals. -/
theorem extreme_hot_sqrt_iff (x m v : ℚ) (hv : 0 ≤ v) :
    extreme_hot x m (some (Real.sqrt (v : ℝ))) ↔
      (m < x ∧ 4 * v < (x - m) ^ 2) := by
  have hvR : (0 : ℝ) ≤ (v : ℝ) := by exact_mod_cast hv
  show (x : ℝ) > (m : ℝ) + 2 * Real.sqrt (v : ℝ) ↔ _
  constructor
  · intro hgt
    have hsn : (0 : ℝ) ≤ Real.sqrt (v : ℝ) := Real.sqrt_nonneg _
    have hmx : (m : ℝ) < (x : ℝ) := by linarith
    refine ⟨by exact_mod_cast hmx, ?_⟩
    have h2 : 2 * Real.sqrt (v : ℝ) < (x : ℝ) - (m : ℝ) := by linarith
    have h3 : (2 * Real.sqrt (v : ℝ)) * (2 * Real.sqrt (v : ℝ)) <
        ((x : ℝ) - (m : ℝ)) * ((x : ℝ) - (m : ℝ)) :=
      mul_self_lt_mul_self (by positivity) h2
    have h4 : Real.sqrt (v : ℝ) * Real.sqrt (v : ℝ) = (v : ℝ) :=
      Real.mul_self_sqrt hvR
    have h5 : 4 * (v : ℝ) < ((x : ℝ) - (m : ℝ)) ^ 2 := by nlinarith
    exact_mod_cast h5
  · rintro ⟨h1, h2⟩
    have h1R : (m : ℝ) < (x : ℝ) := by exact_mod_cast h1
    have h2R : 4 * (v : ℝ) < ((x : ℝ) - (m : ℝ)) ^ 2 := by exact_mod_cast h2
    have h5 : Real.sqrt (4 * (v : ℝ)) < Real.sqrt (((x : ℝ) - (m : ℝ)) ^ 2) :=
      Real.sqrt_lt_sqrt (by positivity) h2R
    have h6 : Real.sqrt (((x : ℝ) - (m : ℝ)) ^ 2) = (x : ℝ) - (m : ℝ) :=
      Real.sqrt_sq (by linarith)
    have h7 : Real.sqrt (4 * (v : ℝ)) = 2 * Real.sqrt (v : ℝ) := by
      rw [show (4 : ℝ) * (v : ℝ) = 2 ^ 2 * (v : ℝ) by norm_num,
        Real.sqrt_mul (by positivity), Real.sqrt_sq (by norm_num)]
    rw [h7, h6] at h5
    linarith

/-- The strict threshold `x < m - 2 * sqrt v` rewritten over the rationals. -/
theorem extreme_cold_sqrt_iff (x m v : ℚ) (hv : 0 ≤ v) :
    extreme_cold x m (some (Real.sqrt (v : ℝ))) ↔
      (x < m ∧ 4 * v < (m - x) ^ 2) := by
  have hvR : (0 : ℝ) ≤ (v : ℝ) := by exact_mod_cast hv
  show (x : ℝ) < (m : ℝ) - 2 * Real.sqrt (v : ℝ) ↔ _
  constructor
  · intro hlt
    have hsn : (0 : ℝ) ≤ Real.sqrt (v : ℝ) := Real.sqrt_nonneg _
    have hmx : (x : ℝ) < (m : ℝ) := by linarith
    refine ⟨by exact_mod_cast hmx, ?_⟩
    have h2 : 2 * Real.sqrt (v : ℝ) < (m : ℝ) - (x : ℝ) := by linarith
    have h3 : (2 * Real.sqrt (v : ℝ)) * (2 * Real.sqrt (v : ℝ)) <
        ((m : ℝ) - (x : ℝ)) * ((m : ℝ) - (x : ℝ)) :=
      mul_self_lt_mul_self (by positivity) h2
    have h4 : Real.sqrt (v : ℝ) * Real.sqrt (v : ℝ) = (v : ℝ) :=
      Real.mul_self_sqrt hvR
    have h5 : 4 * (v : ℝ) < ((m : ℝ) - (x : ℝ)) ^ 2 := by nlinarith
    exact_mod_cast h5
  · rintro ⟨h1, h2⟩
    have h1R : (x : ℝ) < (m : ℝ) := by exact_mod_cast h1
    have h2R : 4 * (v : ℝ) < ((m : ℝ) - (x : ℝ)) ^ 2 := by exact_mod_cast h2
    have h5 : Real.sqrt (4 * (v : ℝ)) < Real.sqrt (((m : ℝ) - (x : ℝ)) ^ 2) :=
      Real.sqrt_lt_sqrt (by positivity) h2R
    have h6 : Real.sqrt (((m : ℝ) - (x : ℝ)) ^ 2) = (m : ℝ) - (x : ℝ) :=
      Real.sqrt_sq (by linarith)
    have h7 : Real.sqrt (4 * (v : ℝ)) = 2 * Real.sqrt (v : ℝ) := by
      rw [show (4 : ℝ) * (v : ℝ) = 2 ^ 2 * (v : ℝ) by norm_num,
        Real.sqrt_mul (by positivity), Real.sqrt_sq (by norm_num)]
    rw [h7, h6] at h5
    linarith

/-- The executable flag agrees with the source's `extreme_hot` comparison. -/
theorem recHot_iff (data : List Enriched) (e : Enriched) :
    recHot data e ↔ recHotB data e = true := by
  unfold recHot recHotB stationStd
  cases hv : sampleVar (stationTemps data e.station_id) with
  | none => simp [extreme_hot]
  | some v =>
    simp only [Option.map_some']
    rw [extreme_hot_sqrt_iff _ _ _ (sampleVar_nonneg _ _ hv)]
    simp

/-- The executable flag agrees with the source's `extreme_cold` comparison. -/
theorem recCold_iff (data : List Enriched) (e : Enriched) :
    recCold data e ↔ recColdB data e = true := by
  unfold recCold recColdB stationStd
  cases hv : sampleVar (stationTemps data e.station_id) with
  | none => simp [extreme_cold]
  | some v =>
    simp only [Option.map_some']
    rw [extreme_cold_sqrt_iff _ _ _ (sampleVar_nonneg _ _ hv)]
    simp

/-- C5: whenever a record's station has a defined standard deviation `s`,
the record is flagged `extreme_hot` iff its `temperature_c` is strictly
greater than the station mean plus `2 * s`, flagged `extreme_cold` iff
strictly less than the mean minus `2 * s`, and a record whose temperature
exactly equals either threshold receives neither flag. -/
theorem c5_strict_threshold_classification (data : List Enriched)
    (e : Enriched) (s : ℝ) (hs : stationStd data e.station_id = some s) :
    (recHot data e ↔
      (e.temperature_c : ℝ) > (stationMean data e.station_id : ℝ) + 2 * s) ∧
    (recCold data e ↔
      (e.temperature_c : ℝ) < (stationMean data e.station_id : ℝ) - 2 * s) ∧
    ((e.temperature_c : ℝ) = (stationMean data e.station_id : ℝ) + 2 * s →
      ¬recHot data e ∧ ¬recCold data e) ∧
    ((e.temperature_c : ℝ) = (stationMean data e.station_id : ℝ) - 2 * s →
      ¬recHot data e ∧ ¬recCold data e) := by
  obtain ⟨v, hv, hsv, hs0⟩ := stationStd_eq_some data e.station_id s hs
  have hhot : recHot data e ↔
      (e.temperature_c : ℝ) > (stationMean data e.station_id : ℝ) + 2 * s := by
    rw [recHot, hs]
    exact Iff.rfl
  have hcold : recCold data e ↔
      (e.temperature_c : ℝ) < (stationMean data e.station_id : ℝ) - 2 * s := by
    rw [recCold, hs]
    exact Iff.rfl
  refine ⟨hhot, hcold, ?_, ?_⟩
  · intro heq
    constructor
    · rw [hhot, heq]
      exact lt_irrefl _
    · rw [hcold, heq]
      intro hc
      linarith
  · intro heq
    constructor
    · rw [hhot, heq]
      intro hc
      linarith
    · rw [hcold, heq]
      exact lt_irrefl _

/-- C5 witness: in `DBoundary` the station's std is exactly 2 and the
record `eBoundary` sits exactly at `mean + 2 * std = 4`; it receives
neither flag. -/
theorem c5_witness :
    recHotB DBoundary eBoundary = false ∧
    recColdB DBoundary eBoundary = false := by
  have htemps : stationTemps DBoundary eBoundary.station_id =
      [4, -1, -1, -1, -1, 0] := by
    norm_num [stationTemps, DBoundary, preprocess_data, enrichWith, eBoundary]
  have h1 : sampleVar (stationTemps DBoundary eBoundary.station_id) = some 4 := by
    rw [htemps, sampleVar]
    norm_num [qmean]
  have h2 : stationStd DBoundary eBoundary.station_id = some 2 := by
    rw [stationStd, h1]
    simp only [Option.map_some', Option.some_inj]
    rw [show ((4 : ℚ) : ℝ) = 2 ^ 2 by norm_num]
    exact Real.sqrt_sq (by norm_num)
  have hm : stationMean DBoundary eBoundary.station_id = 0 := by
    rw [stationMean, htemps]
    norm_num [qmean]
  have ht : eBoundary.temperature_c = 4 := by
    norm_num [eBoundary, enrichWith]
  have hx : (eBoundary.temperature_c : ℝ) =
      (stationMean DBoundary eBoundary.station_id : ℝ) + 2 * 2 := by
    rw [ht, hm]
    norm_num
  have h := (c5_strict_threshold_classification DBoundary eBoundary 2 h2).2.2.1 hx
  constructor
  · cases hb : recHotB DBoundary eBoundary with
    | false => rfl
    | true => exact absurd ((recHot_iff DBoundary eBoundary).mpr hb) h.1
  · cases hb : recColdB DBoundary eBoundary with
    | false => rfl
    | true => exact absurd ((recCold_iff DBoundary eBoundary).mpr hb) h.2

/-- C6 counterexample: the claim says a single-record station's computed
standard deviation is 0; pandas `std` uses `ddof=1`, so on the
single-record station of `DSingle` the computed std is NaN (missing), not
the number 0. -/
theorem c6_counterexample : stationStd DSingle ("B") = none := by
  rw [stationStd, show sampleVar (stationTemps DSingle ("B")) = none by decide]
  rfl

/-- C6 (amended): a station whose full history is exactly one record has a
missing (NaN, `ddof=1`) standard deviation — not 0 — and the detector
produces no `extreme_hot` or `extreme_cold` flag for that station's
records, regardless of the temperature. -/
theorem c6_single_record_station_amended (data : List Enriched) (sid : String)
    (h : (stationTemps data sid).length = 1) :
    stationStd data sid = none ∧
    ∀ e : Enriched, e.station_id = sid → ¬recHot data e ∧ ¬recCold data e := by
  have hsv : sampleVar (stationTemps data sid) = none := by
    rw [sampleVar, if_pos (by omega)]
  have hstd : stationStd data sid = none := by
    rw [stationStd, hsv]
    rfl
  refine ⟨hstd, ?_⟩
  intro e he
  constructor
  · intro hh
    rw [recHot, he, hstd] at hh
    exact hh
  · intro hc
    rw [recCold, he, hstd] at hc
    exact hc

/-- C6 witness: the single-record station of `DSingle` has a missing
standard deviation and its record is not flagged. -/
theorem c6_witness :
    stationStd DSingle ("B") = none ∧ recHotB DSingle eSingle = false := by
  have h := c6_single_record_station_amended DSingle ("B") (by decide)
  refine ⟨h.1, ?_⟩
  cases hb : recHotB DSingle eSingle with
  | false => rfl
  | true =>
    exact absurd ((recHot_iff DSingle eSingle).mpr hb)
      (h.2 eSingle (by decide)).1

/-- Counting two flags that never hold together is bounded by the number of
rows. -/
theorem countP_disjoint_le {α : Type} (p q : α → Bool) :
    ∀ l : List α, (∀ a ∈ l, p a = true → q a = true → False) →
      l.countP p + l.countP q ≤ l.length := by
  intro l
  induction l with
  | nil => intro _; simp
  | cons a t ih =>
    intro h
    have ht := ih (fun b hb => h b (List.mem_cons_of_mem _ hb))
    have ha := h a (List.mem_cons_self a t)
    rw [List.countP_cons, List.countP_cons, List.length_cons]
    cases hp : p a <;> cases hq : q a <;> simp_all <;> omega

/-- C10: no record is ever flagged both `extreme_hot` and `extreme_cold`,
and consequently in every row of the `extreme_counts` table the two counts
sum to at most the number of records in that `(decade, region)` cell. -/
theorem c10_flags_exclusive_counts_bounded (data : List Enriched) :
    (∀ e : Enriched, recHot data e → recCold data e → False) ∧
    (∀ row ∈ (analyze_extreme_temperatures data).2,
      row.extreme_hot + row.extreme_cold ≤
        (cellRecs data row.decade row.region).length) := by
  have hexcl : ∀ e : Enriched, recHot data e → recCold data e → False := by
    intro e hh hc
    rw [recHot] at hh
    rw [recCold] at hc
    cases hv : stationStd data e.station_id with
    | none =>
      rw [hv] at hh
      exact hh
    | some s =>
      obtain ⟨v, -, hsv, hs0⟩ := stationStd_eq_some data e.station_id s hv
      rw [hv] at hh hc
      have hh2 : (e.temperature_c : ℝ) >
          (stationMean data e.station_id : ℝ) + 2 * s := hh
      have hc2 : (e.temperature_c : ℝ) <
          (stationMean data e.station_id : ℝ) - 2 * s := hc
      linarith
  refine ⟨hexcl, ?_⟩
  intro row hrow
  simp only [analyze_extreme_temperatures] at hrow
  rw [List.mem_flatten] at hrow
  obtain ⟨inner, hin, hrin⟩ := hrow
  obtain ⟨d, -, rfl⟩ := List.mem_map.mp hin
  obtain ⟨r, -, rfl⟩ := List.mem_map.mp hrin
  show (cellRecs data d r).countP (recHotB data) +
    (cellRecs data d r).countP (recColdB data) ≤ (cellRecs data d r).length
  apply countP_disjoint_le
  intro a _ hp hq
  exact hexcl a ((recHot_iff data a).mpr hp) ((recCold_iff data a).mpr hq)

/-- C10 witness: the `(1960, Tropical N)` row of the extreme-counts table
of the concrete one-record data set satisfies the bound. -/
theorem c10_witness :
    (⟨1960, Region.TropicalN, 0, 0⟩ : ExtremeRow).extreme_hot +
      (⟨1960, Region.TropicalN, 0, 0⟩ : ExtremeRow).extreme_cold ≤
      (cellRecs DOne 1960 Region.TropicalN).length := by
  have hmem : (⟨1960, Region.TropicalN, 0, 0⟩ : ExtremeRow) ∈
      (analyze_extreme_temperatures DOne).2 := by
    have h1 : (cellRecs DOne 1960 Region.TropicalN).countP (recHotB DOne) = 0 ∧
        (cellRecs DOne 1960 Region.TropicalN).countP (recColdB DOne) = 0 := by
      constructor <;>
        · rw [List.countP_eq_zero]
          intro e he
          have hmem : e ∈ DOne := List.mem_of_mem_filter he
          have he1 : e.station_id = "A" :=
            (by decide : ∀ x ∈ DOne, x.station_id = "A") e hmem
          have hsv : sampleVar (stationTemps DOne e.station_id) = none := by
            rw [he1, sampleVar,
              if_pos (by decide : (stationTemps DOne ("A")).length ≤ 1)]
          simp [recHotB, recColdB, hsv]
    simp only [analyze_extreme_temperatures]
    rw [List.mem_flatten]
    refine ⟨allRegions.map (fun r =>
      ⟨1960, r, (cellRecs DOne 1960 r).countP (recHotB DOne),
        (cellRecs DOne 1960 r).countP (recColdB DOne)⟩), ?_, ?_⟩
    · exact List.mem_map_of_mem _ (by decide)
    · rw [show (⟨1960, Region.TropicalN, 0, 0⟩ : ExtremeRow) =
        ⟨1960, Region.TropicalN,
          (cellRecs DOne 1960 Region.TropicalN).countP (recHotB DOne),
          (cellRecs DOne 1960 Region.TropicalN).countP (recColdB DOne)⟩ from by
          rw [h1.1, h1.2]]
      exact List.mem_map_of_mem _ (mem_allRegions Region.TropicalN)
  exact (c10_flags_exclusive_counts_bounded DOne).2
    ⟨1960, Region.TropicalN, 0, 0⟩ hmem

/-- C7 counterexample: running the Trend Aggregator over the enriched set
changes it: on the concrete one-record set the `decade` column is absent
(`none`) before `analyze_temperature_trends` and populated (`some 1960`)
after, because `data['decade'] = (data['year'] // 10) * 10` writes the
caller's dataframe in place. -/
theorem c7_counterexample :
    DOne.map Enriched.decade = [none] ∧
    (analyze_temperature_trends DOne).1.map Enriched.decade = [some 1960] := by
  constructor <;> decide

/-- C7 (amended): the Extreme Event Detector leaves the enriched record set
unchanged, but the Trend Aggregator mutates it in place by writing the
`decade` column (`10 * floor(year / 10)`); apart from that one column every
field of every record — and the row count and order — is preserved. -/
theorem c7_mutation_amended (data : List Enriched) :
    (analyze_extreme_temperatures data).1 = data ∧
    (analyze_temperature_trends data).1.map eraseDecade =
      data.map eraseDecade ∧
    ∀ e ∈ (analyze_temperature_trends data).1,
      e.decade = some (decadeOf e.year) := by
  refine ⟨rfl, ?_, ?_⟩
  · show (data.map withDecade).map eraseDecade = data.map eraseDecade
    rw [List.map_map]
    rfl
  · intro e he
    obtain ⟨a, -, rfl⟩ := List.mem_map.mp he
    rfl

/-- C7 witness: the detector's post-state on the concrete one-record set is
the input itself. -/
theorem c7_witness : (analyze_extreme_temperatures DOne).1 = DOne :=
  (c7_mutation_amended DOne).1

/-- C8 counterexample: with no persisted dataset and an unreachable remote
source, the loader run (`download_data` followed by `load_data`) does not
fail with any error: it silently generates and returns the synthetic sample
data. -/
theorem c8_counterexample :
    load_data (download_data false ⟨none, false⟩) =
      Except.ok (⟨some CSVContent.sample, false⟩, CSVContent.sample) ∧
    loadOk (load_data (download_data false ⟨none, false⟩)) = true := by
  constructor <;> rfl

/-- C8 (amended): the fallback synthetic-data generator is unconditionally
engaged: whatever the file state and remote reachability, the loader
succeeds (`DataUnavailable` is never raised), and whenever no persisted
dataset exists `load_data` substitutes freshly generated sample data. -/
theorem c8_loader_fallback_amended (remoteOk : Bool) (fs : FileState) :
    loadOk (load_data (download_data remoteOk fs)) = true ∧
    (fs.csv = none →
      load_data fs = Except.ok (create_sample_data fs, CSVContent.sample)) := by
  constructor
  · cases remoteOk <;> cases hc : fs.csv <;>
      simp [download_data, create_sample_data, load_data, loadOk, hc]
  · intro h
    rw [load_data, h]

/-- C8 witness: the amended loader behaviour at the concrete empty file
state with an unreachable remote. -/
theorem c8_witness :
    loadOk (load_data (download_data false ⟨none, false⟩)) = true ∧
    load_data ⟨none, false⟩ =
      Except.ok (create_sample_data ⟨none, false⟩, CSVContent.sample) :=
  ⟨(c8_loader_fallback_amended false ⟨none, false⟩).1,
   (c8_loader_fallback_amended false ⟨none, false⟩).2 rfl⟩

/-- C9: requesting any table whose result file was never built fails — with
`FileNotFoundError` from `load_results` when no result file exists at all,
or with the dict `KeyError` when the key is missing — and never returns an
empty or default table. -/
theorem c9_result_not_available (present : TableName → Bool) (name : TableName)
    (h : present name = false) :
    getTable present name = Except.error StoreError.fileNotFound ∨
    getTable present name = Except.error StoreError.keyError := by
  have hnm : name ∉ requiredFiles.filter present := by
    intro hmem
    have h2 := (List.mem_filter.mp hmem).2
    rw [h] at h2
    exact Bool.false_ne_true h2
  rw [getTable, load_results]
  by_cases hemp : (requiredFiles.filter present).isEmpty
  · left
    rw [if_pos hemp]
  · right
    rw [if_neg hemp]
    show (if name ∈ requiredFiles.filter present then Except.ok name
      else Except.error StoreError.keyError) = Except.error StoreError.keyError
    rw [if_neg hnm]

/-- C9 witness: before any run (no result file present) requesting the
seasonal table fails. -/
theorem c9_witness :
    getTable (fun _ => false) TableName.seasonal_avg =
      Except.error StoreError.fileNotFound ∨
    getTable (fun _ => false) TableName.seasonal_avg =
      Except.error StoreError.keyError :=
  c9_result_not_available (fun _ => false) TableName.seasonal_avg rfl

end ClimateAnalysis
